import Mathlib

/-!
Verification of the trigger-attribution and event-correlation engine of the
`vibe_alarm_sys` / `vibrationsalarm_bridge` custom components.

The definitions below are a shallow embedding of
`src/custom_components/vibe_alarm_sys/__init__.py` (and, where a claim cites
it, `src/custom_components/vibrationsalarm_bridge/__init__.py`).

Modelling conventions:
- timestamps and durations are integers (seconds); scheduled-task delays are
  integers in milliseconds (so fractional-second delays are representable);
- a Python value that may be `None` is an `Option`;
- Python truthiness of strings (`None` and `""` are falsy) is modelled by
  `pyOrOpt` / `pyOrS`, mirroring the `a or b` idiom of the source;
- the external name directory (`_friendly_name(hass, entity_id)`) is an
  abstract parameter `resolve : String → String`;
- `hass.async_create_task` / `asyncio.sleep` are modelled as emitted task
  descriptions carrying an explicit delay.
-/

/-- Python `a or b` on optional strings: `None` and `""` are falsy. -/
def pyOrOpt (a b : Option String) : Option String :=
  match a with
  | none => b
  | some s => if s = "" then b else a

/-- Python `a or b` where the fallback is a plain string. -/
def pyOrS (a : Option String) (b : String) : String :=
  match a with
  | none => b
  | some s => if s = "" then b else s

/-- First component of `entity_id.split(".", 1)` (the entity's domain). -/
def takeUntilDot : List Char → List Char
  | [] => []
  | c :: rest => if c = '.' then [] else c :: takeUntilDot rest

def domainOf (entityId : String) : String :=
  String.mk (takeUntilDot entityId.data)

/-- Python `s.startswith(pre)` on strings, via character lists. -/
def strStartsWith (s pre : String) : Bool :=
  pre.data.isPrefixOf s.data

/-- A Home Assistant state object, restricted to the fields the component
reads: `state`, `name`, and the attributes `friendly_name`, `device_class`,
`source`, `alarm_source`, `changed_by`, `is_group`, `model`. -/
structure StateObj where
  state : Option String
  name : Option String
  friendlyName : Option String
  deviceClass : Option String
  source : Option String
  alarmSource : Option String
  changedBy : Option String
  isGroup : Bool
  model : Option String
deriving Repr, DecidableEq

/-- A state-changed event: `event.data.get("entity_id" / "old_state" / "new_state")`. -/
structure Event where
  entityId : Option String
  oldState : Option StateObj
  newState : Option StateObj
deriving Repr, DecidableEq

/-- One entry of the `recent_triggers` ring buffer:
`(entity_id, friendly_name, timestamp)`. -/
structure ActivationRecord where
  entityId : String
  name : String
  ts : Int
deriving Repr, DecidableEq

/-- The `deque(maxlen=240)` capacity of `recent_triggers` in `vibe_alarm_sys`. -/
def RECENT_TRIGGERS_MAXLEN : Nat := 240

/-- Append to the ring buffer; at capacity the oldest entries are dropped
(`collections.deque` with `maxlen`). -/
def recordTrigger (store : List ActivationRecord) (r : ActivationRecord) :
    List ActivationRecord :=
  if RECENT_TRIGGERS_MAXLEN < (store ++ [r]).length then
    (store ++ [r]).drop ((store ++ [r]).length - RECENT_TRIGGERS_MAXLEN)
  else store ++ [r]

theorem recordTrigger_length_le (s : List ActivationRecord) (r : ActivationRecord)
    (h : s.length ≤ RECENT_TRIGGERS_MAXLEN) :
    (recordTrigger s r).length ≤ RECENT_TRIGGERS_MAXLEN := by
  unfold recordTrigger
  split
  · simp only [List.length_drop]
    omega
  · rename_i h2
    simp only [List.length_append, List.length_singleton, not_lt] at h2 ⊢
    omega

theorem recordTrigger_sublist (s : List ActivationRecord) (r : ActivationRecord) :
    List.Sublist (recordTrigger s r) (s ++ [r]) := by
  unfold recordTrigger
  split
  · exact List.drop_sublist _ _
  · exact List.Sublist.refl _

theorem recordTrigger_eq_append (s : List ActivationRecord) (r : ActivationRecord)
    (h : s.length + 1 ≤ RECENT_TRIGGERS_MAXLEN) :
    recordTrigger s r = s ++ [r] := by
  unfold recordTrigger
  rw [if_neg]
  simp only [List.length_append, List.length_singleton, not_lt]
  omega

theorem foldl_recordTrigger_sublist :
    ∀ (ops : List ActivationRecord) (s : List ActivationRecord),
      List.Sublist (ops.foldl recordTrigger s) (s ++ ops)
  | [], s => by simp [List.foldl]
  | r :: ops, s => by
    have h1 := foldl_recordTrigger_sublist ops (recordTrigger s r)
    have h2 : List.Sublist (recordTrigger s r ++ ops) ((s ++ [r]) ++ ops) :=
      List.Sublist.append_right (recordTrigger_sublist s r) ops
    simpa [List.append_assoc] using h1.trans h2

theorem foldl_recordTrigger_length :
    ∀ (ops : List ActivationRecord) (s : List ActivationRecord),
      s.length ≤ RECENT_TRIGGERS_MAXLEN →
      (ops.foldl recordTrigger s).length ≤ RECENT_TRIGGERS_MAXLEN
  | [], _, h => by simpa using h
  | r :: ops, s, h =>
    foldl_recordTrigger_length ops (recordTrigger s r) (recordTrigger_length_le s r h)

/-- Embedding of `_record_trigger(entity_id, name)`: append
`(entity_id, name or _friendly_name(hass, entity_id), utcnow())`, where the
directory lookup `_friendly_name` is the abstract `resolve`. -/
def recordTriggerOp (resolve : String → String) (store : List ActivationRecord)
    (eid : String) (name : Option String) (now : Int) : List ActivationRecord :=
  recordTrigger store ⟨eid, pyOrS name (resolve eid), now⟩

/-- Constant `TRIGGER_WINDOW_SECONDS` from `const.py` (legacy default lookback). -/
def TRIGGER_WINDOW_SECONDS : Int := 10

/-- Python `lookback_seconds or TRIGGER_WINDOW_SECONDS` (`0` is falsy). -/
def effectiveWindow (lookbackSeconds : Int) : Int :=
  if lookbackSeconds = 0 then TRIGGER_WINDOW_SECONDS else lookbackSeconds

/-- The newest → oldest loop body of `_pick_recent_trigger_name`: skip entries
older than the window (`continue`), return the first name inside it. -/
def pickScan (now window : Int) : List ActivationRecord → Option String
  | [] => none
  | r :: rest => if window < now - r.ts then pickScan now window rest else some r.name

/-- Embedding of `_pick_recent_trigger_name()` of `vibe_alarm_sys`: `None` on an empty
buffer, otherwise scan `reversed(recent_triggers)`. -/
def pickRecentTriggerName (store : List ActivationRecord) (now lookbackSeconds : Int) :
    Option String :=
  if store.isEmpty then none
  else pickScan now (effectiveWindow lookbackSeconds) store.reverse

/-- The source text computed by `_push_to_all` for `state_str == "triggered"`:
`recent or panel_src or "Alarm"` when `prefer_trigger_friendly_name`, else
`panel_src or recent or "Alarm"`. -/
def resolveSource (recent panelSrc : Option String) (prefer : Bool) : String :=
  if prefer then pyOrS recent (pyOrS panelSrc "Alarm")
  else pyOrS panelSrc (pyOrS recent "Alarm")

/-- The newest-first view of the store (`reversed(recent_triggers)`). -/
def scanNewestFirst (store : List ActivationRecord) : List ActivationRecord :=
  store.reverse

/-- The newest record whose timestamp lies within the window of `now`
(the claim's reading of the recency-window scan). -/
def newestWithinWindow (store : List ActivationRecord) (now window : Int) :
    Option ActivationRecord :=
  store.reverse.find? (fun r => decide (now - r.ts ≤ window))

theorem pickScan_eq_find (now window : Int) :
    ∀ l : List ActivationRecord,
      pickScan now window l =
        (l.find? (fun r => decide (now - r.ts ≤ window))).map ActivationRecord.name
  | [] => rfl
  | r :: rest => by
    by_cases h : window < now - r.ts
    · rw [List.find?_cons_of_neg _ (by simp only [decide_eq_true_eq]; omega)]
      simp only [pickScan, if_pos h]
      exact pickScan_eq_find now window rest
    · rw [List.find?_cons_of_pos _ (by simp only [decide_eq_true_eq]; omega)]
      simp [pickScan, h]

theorem pickRecentTriggerName_eq (store : List ActivationRecord) (now lookbackSeconds : Int) :
    pickRecentTriggerName store now lookbackSeconds =
      (newestWithinWindow store now (effectiveWindow lookbackSeconds)).map
        ActivationRecord.name := by
  unfold pickRecentTriggerName newestWithinWindow
  by_cases h : store.isEmpty
  · have : store = [] := by simpa [List.isEmpty_iff] using h
    simp [this, h]
  · simp [h, pickScan_eq_find]

/-- C1: if the recency-window scan (newest to oldest) finds a record within
the lookback window, and that record's display name is nonempty, then with
`preferTriggerFriendlyName = true` the resolved source is that record's
display name, whatever the panel hint is. -/
theorem C1_recent_window_attribution (store : List ActivationRecord)
    (now lookbackSeconds : Int) (hint : Option String) (r : ActivationRecord)
    (hr : newestWithinWindow store now (effectiveWindow lookbackSeconds) = some r)
    (hname : r.name ≠ "") :
    resolveSource (pickRecentTriggerName store now lookbackSeconds) hint true = r.name := by
  have hpick : pickRecentTriggerName store now lookbackSeconds = some r.name := by
    rw [pickRecentTriggerName_eq, hr]
    rfl
  simp [resolveSource, hpick, pyOrS, hname]

theorem C1_recent_window_attribution_witness :
    newestWithinWindow [⟨"binary_sensor.front_door", "Front Door", 95⟩] 100
        (effectiveWindow 30) = some ⟨"binary_sensor.front_door", "Front Door", 95⟩ ∧
    resolveSource (pickRecentTriggerName [⟨"binary_sensor.front_door", "Front Door", 95⟩] 100 30)
        (some "Zone 2") true = "Front Door" := by
  refine ⟨by decide, ?_⟩
  exact C1_recent_window_attribution
    [⟨"binary_sensor.front_door", "Front Door", 95⟩] 100 30 (some "Zone 2")
    ⟨"binary_sensor.front_door", "Front Door", 95⟩ (by decide) (by decide)

/-- Two appends carrying the same timestamp: realizable by the code, e.g. the
two `_record_trigger` calls issued for one accepted manual-trigger activation
(`_handle_trigger_entities` and the `_handle_trigger` task it spawns) at the
same clock reading. -/
def equalTsOps : List ActivationRecord :=
  [⟨"binary_sensor.a", "Sensor A", 5⟩, ⟨"binary_sensor.b", "Sensor B", 5⟩]

/-- C2 counterexample: a sequence of record operations with non-decreasing
(equal) timestamps whose newest-first scan is NOT strictly
reverse-chronological — strictness fails on timestamp ties. -/
theorem C2_strict_order_counterexample :
    equalTsOps.Pairwise (fun a b => a.ts ≤ b.ts) ∧
    ¬ (scanNewestFirst (equalTsOps.foldl recordTrigger [])).Pairwise
        (fun a b => b.ts < a.ts) := by
  constructor
  · decide
  · decide

/-- C2 (amended): for every sequence of record operations with non-decreasing
timestamps, the store never exceeds its fixed capacity of 240 entries (the
oldest entries are silently discarded at capacity) and the newest-first scan
yields records in non-strict reverse-chronological order of `observedAt`
(ties of equal timestamps are allowed). -/
theorem C2_capacity_and_order (ops : List ActivationRecord)
    (hmono : ops.Pairwise (fun a b => a.ts ≤ b.ts)) :
    (ops.foldl recordTrigger []).length ≤ RECENT_TRIGGERS_MAXLEN ∧
    (scanNewestFirst (ops.foldl recordTrigger [])).Pairwise (fun a b => b.ts ≤ a.ts) := by
  constructor
  · exact foldl_recordTrigger_length ops [] (by simp [RECENT_TRIGGERS_MAXLEN])
  · have hsub : List.Sublist (ops.foldl recordTrigger []) ops := by
      simpa using foldl_recordTrigger_sublist ops []
    have hp := hmono.sublist hsub
    unfold scanNewestFirst
    exact (List.pairwise_reverse).mpr hp

theorem C2_capacity_and_order_witness :
    (equalTsOps.foldl recordTrigger []).length ≤ RECENT_TRIGGERS_MAXLEN ∧
    (scanNewestFirst (equalTsOps.foldl recordTrigger [])).Pairwise
      (fun a b => b.ts ≤ a.ts) :=
  C2_capacity_and_order equalTsOps (by decide)

/-- The newest → oldest loop of the bridge variant's
`_pick_recent_trigger_name`: entries are `(entity_id, timestamp)` pairs and the
display name is resolved at read time via `_friendly_name` (`resolve`). -/
def bridgeScan (resolve : String → String) (now : Int) :
    List (String × Int) → Option String
  | [] => none
  | p :: rest =>
    if TRIGGER_WINDOW_SECONDS < now - p.2 then bridgeScan resolve now rest
    else some (resolve p.1)

/-- Embedding of `_pick_recent_trigger_name()` of `vibrationsalarm_bridge`. -/
def bridgePickRecentTriggerName (resolve : String → String)
    (store : List (String × Int)) (now : Int) : Option String :=
  if store.isEmpty then none else bridgeScan resolve now store.reverse

/-- The source text computed by the bridge variant's `_push_state` for
`state_str == "triggered"`. -/
def bridgeResolveSource (recent : Option String) : String :=
  pyOrS recent "Unbekannter Auslöser"

theorem pickScan_eq_none (now window : Int) :
    ∀ l : List ActivationRecord, (∀ r ∈ l, window < now - r.ts) →
      pickScan now window l = none
  | [], _ => rfl
  | r :: rest, h => by
    have hr := h r (by simp)
    simp only [pickScan, if_pos hr]
    exact pickScan_eq_none now window rest (fun x hx => h x (by simp [hx]))

theorem bridgeScan_eq_none (resolve : String → String) (now : Int) :
    ∀ l : List (String × Int), (∀ p ∈ l, TRIGGER_WINDOW_SECONDS < now - p.2) →
      bridgeScan resolve now l = none
  | [], _ => rfl
  | p :: rest, h => by
    have hp := h p (by simp)
    simp only [bridgeScan, if_pos hp]
    exact bridgeScan_eq_none resolve now rest (fun x hx => h x (by simp [hx]))

/-- C8: when every recorded activation is older than the lookback window and
no panel source hint is present, attribution resolves to the fixed default
placeholder — `"Alarm"` in `vibe_alarm_sys` (for either precedence toggle) and
`"Unbekannter Auslöser"` in `vibrationsalarm_bridge` — and, the resolution
being a total function, never raises. -/
theorem C8_default_placeholder (store : List ActivationRecord)
    (bstore : List (String × Int)) (resolve : String → String)
    (now lookbackSeconds : Int) (prefer : Bool)
    (h1 : ∀ r ∈ store, effectiveWindow lookbackSeconds < now - r.ts)
    (h2 : ∀ p ∈ bstore, TRIGGER_WINDOW_SECONDS < now - p.2) :
    resolveSource (pickRecentTriggerName store now lookbackSeconds) none prefer = "Alarm" ∧
    bridgeResolveSource (bridgePickRecentTriggerName resolve bstore now) =
      "Unbekannter Auslöser" := by
  have hp : pickRecentTriggerName store now lookbackSeconds = none := by
    unfold pickRecentTriggerName
    split
    · rfl
    · exact pickScan_eq_none now _ store.reverse (fun r hr => h1 r (by simpa using hr))
  have hb : bridgePickRecentTriggerName resolve bstore now = none := by
    unfold bridgePickRecentTriggerName
    split
    · rfl
    · exact bridgeScan_eq_none resolve now bstore.reverse (fun p hq => h2 p (by simpa using hq))
  rw [hp, hb]
  cases prefer <;> simp [resolveSource, bridgeResolveSource, pyOrS]

theorem C8_default_placeholder_witness :
    resolveSource (pickRecentTriggerName [⟨"binary_sensor.a", "Sensor A", 0⟩] 100 30)
        none true = "Alarm" ∧
    bridgeResolveSource
        (bridgePickRecentTriggerName (fun e => e) [("binary_sensor.a", 0)] 100) =
      "Unbekannter Auslöser" :=
  C8_default_placeholder [⟨"binary_sensor.a", "Sensor A", 0⟩] [("binary_sensor.a", 0)]
    (fun e => e) 100 30 true (by decide) (by decide)

/-- Python `_last_trigger_ts.get(entity_id, 0.0)`: first binding wins, default `0`. -/
def lookupTs (m : List (String × Int)) (k : String) : Int :=
  match m.find? (fun p => p.1 == k) with
  | some p => p.2
  | none => 0

/-- Python `_last_trigger_ts[entity_id] = now_ts`: a dict update, modelled by
prepending the binding (first-match lookup keeps dict semantics). -/
def setTs (m : List (String × Int)) (k : String) (v : Int) : List (String × Int) :=
  (k, v) :: m

theorem lookupTs_setTs (m : List (String × Int)) (k : String) (v : Int) :
    lookupTs (setTs m k v) k = v := by
  simp [lookupTs, setTs, List.find?_cons]

/-- The mutable closure state of one `vibe_alarm_sys` entry: the
`recent_triggers` ring buffer, the `_last_trigger_ts` cooldown map, and the
`last_alarm_source` panel hint. -/
structure EngineState where
  recentTriggers : List ActivationRecord
  lastTriggerTs : List (String × Int)
  lastAlarmSource : Option String
deriving Repr, DecidableEq

/-- The "meaningful transition" test of `_handle_trigger_entities`
(lines 236–248): for `binary_sensor` entities, an edge into `"on"` from a
non-`"on"` (or absent) old state; for every other domain, any change of state
whose new value is not `"unknown"`/`"unavailable"`. -/
def isTriggeredTransition (entityId : String) (oldState : Option StateObj)
    (ns : StateObj) : Bool :=
  if domainOf entityId = "binary_sensor" then
    (match oldState with
     | none => true
     | some os => os.state != some "on") && (ns.state == some "on")
  else
    (ns.state != some "unknown") && (ns.state != some "unavailable") &&
      (match oldState with
       | none => true
       | some os => os.state != ns.state)

/-- A `_handle_trigger(entity_id, friendly)` task created by
`hass.async_create_task` in `_handle_trigger_entities`. -/
structure PulseTask where
  entityId : String
  friendly : String
deriving Repr, DecidableEq

/-- Embedding of `_handle_trigger_entities(event)`: cooldown gate, meaningful-transition
gate, then cooldown-map update, `_record_trigger`, and creation of one
`_handle_trigger` pulse task. -/
def handleTriggerEntities (resolve : String → String) (cooldownSeconds : Int)
    (st : EngineState) (now : Int) (ev : Event) : EngineState × List PulseTask :=
  match ev.entityId with
  | none => (st, [])
  | some eid =>
    if eid = "" then (st, [])
    else
      match ev.newState with
      | none => (st, [])
      | some ns =>
        if now - lookupTs st.lastTriggerTs eid < cooldownSeconds then (st, [])
        else if isTriggeredTransition eid ev.oldState ns then
          let friendly := pyOrS ns.friendlyName eid
          ({ st with
              lastTriggerTs := setTs st.lastTriggerTs eid now,
              recentTriggers :=
                recordTriggerOp resolve st.recentTriggers eid (some friendly) now },
           [⟨eid, friendly⟩])
        else (st, [])

/-- The `_record_trigger(entity_id, friendly)` call performed at the start of
the `_handle_trigger` pulse task (its pushes and delayed reset do not touch
the Recency Store). -/
def runPulseRecord (resolve : String → String) (store : List ActivationRecord)
    (now : Int) (p : PulseTask) : List ActivationRecord :=
  recordTriggerOp resolve store p.entityId (some p.friendly) now

/-- C3: two activations of the same manual-trigger sensor, the first accepted
at `t1`, the second arriving at `t2` with `t2 - t1 < cooldownSeconds`: exactly
one pulse (push sequence) is issued — for the first activation — and the
second event leaves the whole engine state (cooldown map and Recency Store)
unchanged and spawns nothing. -/
theorem C3_cooldown_single_pulse (resolve : String → String) (cooldownSeconds : Int)
    (st : EngineState) (t1 t2 : Int) (eid : String) (os1 : Option StateObj)
    (ns1 : StateObj) (ev2 : Event)
    (heid : eid ≠ "")
    (hcool : cooldownSeconds ≤ t1 - lookupTs st.lastTriggerTs eid)
    (htrig : isTriggeredTransition eid os1 ns1 = true)
    (hev2 : ev2.entityId = some eid)
    (h2 : t2 - t1 < cooldownSeconds) :
    (handleTriggerEntities resolve cooldownSeconds st t1 ⟨some eid, os1, some ns1⟩).2.length = 1 ∧
    handleTriggerEntities resolve cooldownSeconds
        (handleTriggerEntities resolve cooldownSeconds st t1 ⟨some eid, os1, some ns1⟩).1
        t2 ev2 =
      ((handleTriggerEntities resolve cooldownSeconds st t1 ⟨some eid, os1, some ns1⟩).1, []) := by
  have hnc : ¬ (t1 - lookupTs st.lastTriggerTs eid < cooldownSeconds) := by omega
  have h1 : handleTriggerEntities resolve cooldownSeconds st t1 ⟨some eid, os1, some ns1⟩ =
      ({ st with
          lastTriggerTs := setTs st.lastTriggerTs eid t1,
          recentTriggers :=
            recordTriggerOp resolve st.recentTriggers eid (some (pyOrS ns1.friendlyName eid)) t1 },
       [⟨eid, pyOrS ns1.friendlyName eid⟩]) := by
    simp [handleTriggerEntities, heid, hnc, htrig]
  refine ⟨by rw [h1]; rfl, ?_⟩
  rw [h1]
  obtain ⟨e2, o2, n2⟩ := ev2
  simp only [Event.mk.injEq] at hev2 ⊢
  subst hev2
  cases n2 with
  | none => simp [handleTriggerEntities, heid]
  | some ns2 =>
    have hlk : lookupTs (setTs st.lastTriggerTs eid t1) eid = t1 := lookupTs_setTs _ _ _
    simp [handleTriggerEntities, heid, hlk]
    omega

/-- A state object carrying only a state value (no attributes). -/
def plainState (v : String) : StateObj :=
  ⟨some v, none, none, none, none, none, none, false, none⟩

/-- A camera-motion binary sensor in state `"on"`. -/
def stOnCam : StateObj :=
  ⟨some "on", none, some "Camera Motion", some "motion", none, none, none, false, none⟩

theorem C3_cooldown_single_pulse_witness :
    (handleTriggerEntities (fun e => e) 5 ⟨[], [], none⟩ 10
        ⟨some "binary_sensor.cam", some (plainState "off"), some stOnCam⟩).2.length = 1 ∧
    handleTriggerEntities (fun e => e) 5
        (handleTriggerEntities (fun e => e) 5 ⟨[], [], none⟩ 10
          ⟨some "binary_sensor.cam", some (plainState "off"), some stOnCam⟩).1 12
        ⟨some "binary_sensor.cam", some stOnCam, some stOnCam⟩ =
      ((handleTriggerEntities (fun e => e) 5 ⟨[], [], none⟩ 10
          ⟨some "binary_sensor.cam", some (plainState "off"), some stOnCam⟩).1, []) :=
  C3_cooldown_single_pulse (fun e => e) 5 ⟨[], [], none⟩ 10 12 "binary_sensor.cam"
    (some (plainState "off")) stOnCam
    ⟨some "binary_sensor.cam", some stOnCam, some stOnCam⟩
    (by decide) (by decide) (by decide) rfl (by decide)

/-- Lower-casing, character by character. -/
def lowerStr (s : String) : String := String.mk (s.data.map Char.toLower)

/-- Follows the spec's words (§4.1 rule 2 / claim C7): the claimed
active-state vocabulary. -/
def specActiveVocab : List String := ["on", "open", "opened", "true", "detected"]

/-- Follows the spec's words (claim C7): accept iff `oldState != newState` and
`newState` is in the active-state vocabulary, case-insensitively, regardless
of the entity's domain. Stated for comparison with the source's
`isTriggeredTransition`. -/
def specAcceptC7 (oldS newS : Option String) : Bool :=
  (oldS != newS) &&
    (match newS with
     | some s => specActiveVocab.contains (lowerStr s)
     | none => false)

/-- C7 counterexample: the code's acceptance disagrees with the claimed rule
in both directions. A `sensor.`-domain entity changing `"on"` → `"off"` is
accepted by the code (a pulse is spawned) although `"off"` is not in the
claimed vocabulary; a `binary_sensor.` entity changing `"closed"` → `"open"`
is rejected by the code although the claimed rule accepts it. -/
theorem C7_vocab_counterexample :
    (handleTriggerEntities (fun e => e) 5 ⟨[], [], none⟩ 10
        ⟨some "sensor.power", some (plainState "on"), some (plainState "off")⟩).2 ≠ [] ∧
    specAcceptC7 (some "on") (some "off") = false ∧
    (handleTriggerEntities (fun e => e) 5 ⟨[], [], none⟩ 10
        ⟨some "binary_sensor.door", some (plainState "closed"), some (plainState "open")⟩).2 = [] ∧
    specAcceptC7 (some "closed") (some "open") = true := by
  refine ⟨by decide, by decide, by decide, by decide⟩

theorem isTriggeredTransition_iff (eid : String) (os : Option StateObj) (ns : StateObj) :
    isTriggeredTransition eid os ns = true ↔
      (if domainOf eid = "binary_sensor" then
        ns.state = some "on" ∧ ∀ o, os = some o → o.state ≠ some "on"
      else
        (ns.state ≠ some "unknown" ∧ ns.state ≠ some "unavailable") ∧
          ∀ o, os = some o → o.state ≠ ns.state) := by
  unfold isTriggeredTransition
  by_cases hd : domainOf eid = "binary_sensor" <;> cases os <;>
    simp [hd, and_comm, bne_iff_ne, and_assoc]

/-- C7 (amended): outside the per-entity cooldown, an event for a configured
manual-trigger entity spawns a pulse iff the code's domain-dependent rule
holds: for `binary_sensor.*` entities, the new state is `"on"` and the old
state is absent or not `"on"`; for entities of any other domain, the new state
is not `"unknown"`/`"unavailable"` and differs from the old state (or the old
state is absent). No active-state vocabulary beyond `"on"` is consulted, and
the rule does depend on the entity's domain. -/
theorem C7_acceptance_characterization (resolve : String → String)
    (cooldownSeconds : Int) (st : EngineState) (now : Int) (eid : String)
    (os : Option StateObj) (ns : StateObj)
    (heid : eid ≠ "")
    (hcool : cooldownSeconds ≤ now - lookupTs st.lastTriggerTs eid) :
    (handleTriggerEntities resolve cooldownSeconds st now ⟨some eid, os, some ns⟩).2 ≠ [] ↔
      (if domainOf eid = "binary_sensor" then
        ns.state = some "on" ∧ ∀ o, os = some o → o.state ≠ some "on"
      else
        (ns.state ≠ some "unknown" ∧ ns.state ≠ some "unavailable") ∧
          ∀ o, os = some o → o.state ≠ ns.state) := by
  have hnc : ¬ (now - lookupTs st.lastTriggerTs eid < cooldownSeconds) := by omega
  rw [← isTriggeredTransition_iff eid os ns]
  by_cases ht : isTriggeredTransition eid os ns = true
  · simp [handleTriggerEntities, heid, hnc, ht]
  · simp [handleTriggerEntities, heid, hnc, ht]

theorem C7_acceptance_characterization_witness :
    (handleTriggerEntities (fun e => e) 5 ⟨[], [], none⟩ 10
        ⟨some "binary_sensor.cam", some (plainState "off"), some stOnCam⟩).2 ≠ [] ↔
      (if domainOf "binary_sensor.cam" = "binary_sensor" then
        stOnCam.state = some "on" ∧
          ∀ o, (some (plainState "off") : Option StateObj) = some o → o.state ≠ some "on"
      else
        (stOnCam.state ≠ some "unknown" ∧ stOnCam.state ≠ some "unavailable") ∧
          ∀ o, (some (plainState "off") : Option StateObj) = some o → o.state ≠ stOnCam.state) :=
  C7_acceptance_characterization (fun e => e) 5 ⟨[], [], none⟩ 10 "binary_sensor.cam"
    (some (plainState "off")) stOnCam (by decide) (by decide)

theorem pyOrS_ne_empty (a : Option String) (b : String) (hb : b ≠ "") :
    pyOrS a b ≠ "" := by
  unfold pyOrS
  cases a with
  | none => exact hb
  | some s =>
    by_cases hs : s = ""
    · simpa [hs] using hb
    · simp [hs]

theorem pyOrS_some_of_ne (s c : String) (h : s ≠ "") : pyOrS (some s) c = s := by
  simp [pyOrS, h]

/-- C10: a single accepted activation of a manual-trigger entity appends two
records for that entity — one from `_handle_trigger_entities` itself and one
from the `_handle_trigger` pulse task it spawns — so (when no other event
intervenes and the buffer is below capacity) the store gains duplicate
adjacent entries carrying the same entity id and display name. -/
theorem C10_double_record (resolve : String → String) (cooldownSeconds : Int)
    (st : EngineState) (now now2 : Int) (eid : String) (os : Option StateObj)
    (ns : StateObj)
    (heid : eid ≠ "")
    (hcool : cooldownSeconds ≤ now - lookupTs st.lastTriggerTs eid)
    (htrig : isTriggeredTransition eid os ns = true)
    (hcap : st.recentTriggers.length + 2 ≤ RECENT_TRIGGERS_MAXLEN) :
    ∃ p : PulseTask,
      (handleTriggerEntities resolve cooldownSeconds st now ⟨some eid, os, some ns⟩).2 = [p] ∧
      p.entityId = eid ∧
      runPulseRecord resolve
          (handleTriggerEntities resolve cooldownSeconds st now
            ⟨some eid, os, some ns⟩).1.recentTriggers now2 p =
        st.recentTriggers ++
          [⟨eid, pyOrS ns.friendlyName eid, now⟩, ⟨eid, pyOrS ns.friendlyName eid, now2⟩] := by
  have hnc : ¬ (now - lookupTs st.lastTriggerTs eid < cooldownSeconds) := by omega
  have h1 : handleTriggerEntities resolve cooldownSeconds st now ⟨some eid, os, some ns⟩ =
      ({ st with
          lastTriggerTs := setTs st.lastTriggerTs eid now,
          recentTriggers :=
            recordTriggerOp resolve st.recentTriggers eid
              (some (pyOrS ns.friendlyName eid)) now },
       [⟨eid, pyOrS ns.friendlyName eid⟩]) := by
    simp [handleTriggerEntities, heid, hnc, htrig]
  refine ⟨⟨eid, pyOrS ns.friendlyName eid⟩, by rw [h1], rfl, ?_⟩
  rw [h1]
  have hfr : pyOrS (some (pyOrS ns.friendlyName eid)) (resolve eid) =
      pyOrS ns.friendlyName eid :=
    pyOrS_some_of_ne _ _ (pyOrS_ne_empty ns.friendlyName eid heid)
  have hs1 : recordTriggerOp resolve st.recentTriggers eid
      (some (pyOrS ns.friendlyName eid)) now =
      st.recentTriggers ++ [⟨eid, pyOrS ns.friendlyName eid, now⟩] := by
    rw [recordTriggerOp, hfr, recordTrigger_eq_append]
    omega
  rw [runPulseRecord, hs1, recordTriggerOp, hfr, recordTrigger_eq_append]
  · simp
  · simp only [List.length_append, List.length_singleton]
    omega

theorem C10_double_record_witness :
    ∃ p : PulseTask,
      (handleTriggerEntities (fun e => e) 5 ⟨[], [], none⟩ 10
          ⟨some "binary_sensor.cam", some (plainState "off"), some stOnCam⟩).2 = [p] ∧
      p.entityId = "binary_sensor.cam" ∧
      runPulseRecord (fun e => e)
          (handleTriggerEntities (fun e => e) 5 ⟨[], [], none⟩ 10
            ⟨some "binary_sensor.cam", some (plainState "off"), some stOnCam⟩).1.recentTriggers
          10 p =
        [] ++
          [⟨"binary_sensor.cam", pyOrS stOnCam.friendlyName "binary_sensor.cam", 10⟩,
           ⟨"binary_sensor.cam", pyOrS stOnCam.friendlyName "binary_sensor.cam", 10⟩] :=
  C10_double_record (fun e => e) 5 ⟨[], [], none⟩ 10 10 "binary_sensor.cam"
    (some (plainState "off")) stOnCam (by decide) (by decide) (by decide) (by decide)

/-- Constant `_AUTO_DEVICE_CLASSES` of `vibe_alarm_sys`. -/
def AUTO_DEVICE_CLASSES : List String := ["motion", "opening"]

/-- The `trigger_states` set of `_is_meaningful_trigger`. -/
def TRIGGER_STATES : List String := ["on", "open"]

/-- Embedding of `_is_meaningful_trigger(old_s, new_s)`: reject falsy or
unknown/unavailable new values; accept transitions into `"on"`/`"open"` from a
non-trigger state, and the `"closed"` → `"open"` contact idiom. -/
def isMeaningfulTrigger (oldS newS : Option String) : Bool :=
  match newS with
  | none => false
  | some n =>
    if n == "" || n == "unknown" || n == "unavailable" then false
    else if TRIGGER_STATES.contains n &&
        !(match oldS with
          | some o => TRIGGER_STATES.contains o
          | none => false) then true
    else if oldS == some "closed" && n == "open" then true
    else false

/-- Embedding of `_handle_any_state_change(event)` (lines 278–297): the hybrid auto-track
listener. Requires the toggle, a `binary_sensor.` entity id, both states
present, a device class in `_AUTO_DEVICE_CLASSES`, and a meaningful
transition; then records `(entity_id, friendly_name or State.name or
entity_id)`. -/
def handleAnyStateChange (resolve : String → String) (autoTrack : Bool)
    (store : List ActivationRecord) (now : Int) (ev : Event) :
    List ActivationRecord :=
  if !autoTrack then store
  else
    match ev.entityId with
    | none => store
    | some eid =>
      if eid == "" || !(strStartsWith eid "binary_sensor.") then store
      else
        match ev.newState, ev.oldState with
        | some ns, some os =>
          if !(match ns.deviceClass with
               | some d => AUTO_DEVICE_CLASSES.contains d
               | none => false) then store
          else if isMeaningfulTrigger os.state ns.state then
            recordTriggerOp resolve store eid
              (some (pyOrS ns.friendlyName (pyOrS ns.name eid))) now
          else store
        | _, _ => store

def normalizeChar (c : Char) : Char := if c = '-' then ' ' else c.toLower

/-- Lower-case and map hyphens to spaces (the spec's "case-insensitive,
hyphen/space-insensitive" name comparison). -/
def normalizeName (s : String) : String := String.mk (s.data.map normalizeChar)

def listContainsSub (pat : List Char) : List Char → Bool
  | [] => pat.isEmpty
  | c :: rest => pat.isPrefixOf (c :: rest) || listContainsSub pat rest

/-- Substring test on strings. -/
def strContains (s pat : String) : Bool := listContainsSub pat.data s.data

/-- Follows the spec's words (§4.1 rule 4 / claim C4): an aggregate/virtual
"zone" entity — a known aggregate-model marker (the markers are not enumerated
in src, so they are a parameter), or `is_group` with a `"safety"` device
class, or a display name containing `"security zone"` (case-insensitive,
hyphen/space-insensitive). Stated for comparison with the source handlers,
which implement no such filter. -/
def isAggregateZone (aggregateModels : List String) (st : StateObj) : Bool :=
  (match st.model with
   | some m => aggregateModels.contains m
   | none => false)
  || (st.isGroup && st.deviceClass == some "safety")
  || strContains (normalizeName (pyOrS st.friendlyName "")) "security zone"

/-- A motion binary sensor whose display name contains "Security Zone". -/
def nsZone : StateObj :=
  ⟨some "on", none, some "Security Zone 1", some "motion", none, none, none, false, none⟩

/-- C4 counterexample: an aggregate/zone entity in the claim's sense (its name
contains "security zone") with an auto-tracked device class IS appended to the
Recency Store by `_handle_any_state_change` on an off→on transition — the
source implements no aggregate/zone filter. -/
theorem C4_security_zone_recorded :
    isAggregateZone [] nsZone = true ∧
    handleAnyStateChange (fun e => e) true [] 0
        ⟨some "binary_sensor.zone1", some (plainState "off"), some nsZone⟩ =
      [⟨"binary_sensor.zone1", "Security Zone 1", 0⟩] := by
  refine ⟨by decide, by decide⟩

/-- C4 (amended): the auto-track recorder filters only on the device class
(`motion`/`opening`) and the transition, so an aggregate entity whose device
class is `"safety"` (the `is_group` + "safety" characterization) is never
recorded by `_handle_any_state_change`; but no name-based or group-based
aggregate filter exists, so a "security zone"-named entity with an
auto-tracked device class is recorded (see the counterexample). -/
theorem C4_safety_class_never_recorded (resolve : String → String)
    (autoTrack : Bool) (store : List ActivationRecord) (now : Int) (ev : Event)
    (h : ∀ ns, ev.newState = some ns → ns.deviceClass = some "safety") :
    handleAnyStateChange resolve autoTrack store now ev = store := by
  obtain ⟨e, o, n⟩ := ev
  cases hat : autoTrack with
  | false => simp [handleAnyStateChange]
  | true =>
    cases e with
    | none => simp [handleAnyStateChange]
    | some eid =>
      cases n with
      | none =>
        cases o <;> simp [handleAnyStateChange]
      | some ns =>
        have hdc := h ns rfl
        cases o with
        | none => simp [handleAnyStateChange]
        | some os =>
          simp only [handleAnyStateChange, hdc]
          have hc : (!AUTO_DEVICE_CLASSES.contains "safety") = true := by decide
          simp [hc]
          intro h1 h2 hmem
          exact absurd hmem (by decide)

/-- A grouped "safety"-class aggregate state. -/
def nsSafety : StateObj :=
  ⟨some "on", none, some "All Sensors", some "safety", none, none, none, true, none⟩

theorem C4_safety_class_never_recorded_witness :
    handleAnyStateChange (fun e => e) true [] 0
        ⟨some "binary_sensor.group", some (plainState "off"), some nsSafety⟩ = [] :=
  C4_safety_class_never_recorded (fun e => e) true [] 0
    ⟨some "binary_sensor.group", some (plainState "off"), some nsSafety⟩
    (fun ns hns => by
      have h2 : nsSafety = ns := Option.some.inj hns
      rw [← h2]
      rfl)

/-- A `_push_to_all(state_str)` task created by `hass.async_create_task`; the
delay (milliseconds) before the push body runs — `async_create_task` schedules
immediately, with no sleep. -/
structure PushTask where
  delayMs : Int
  stateStr : String
deriving Repr, DecidableEq

/-- Embedding of `_handle_alarm_event(event)` (lines 169–185): on a missing new state,
return unchanged; otherwise overwrite `last_alarm_source` from the event's
`source` / `alarm_source` / `changed_by` attributes, drop
`None`/unknown/unavailable states, and otherwise create an immediate
`_push_to_all` task. Returns the new hint and the created tasks. -/
def handleAlarmEvent (lastSrc : Option String) (ev : Event) :
    Option String × List PushTask :=
  match ev.newState with
  | none => (lastSrc, [])
  | some ns =>
    let newSrc := pyOrOpt ns.source (pyOrOpt ns.alarmSource ns.changedBy)
    match ns.state with
    | none => (newSrc, [])
    | some st =>
      if st == "unknown" || st == "unavailable" then (newSrc, [])
      else (newSrc, [⟨0, st⟩])

/-- The panel entity transitioning into `"triggered"`. -/
def evTriggered : Event :=
  ⟨some "alarm_control_panel.home", none, some (plainState "triggered")⟩

/-- C5 counterexample: the push task created for a panel "triggered"
transition carries a delay of 0 ms — `_handle_alarm_event` calls
`hass.async_create_task(_push_to_all(st))` with no sleep — not the claimed
fixed ≈1.5 s (1500 ms) delay. -/
theorem C5_no_fixed_delay_counterexample :
    (handleAlarmEvent none evTriggered).2.map PushTask.delayMs = [0] ∧
    ¬ (1500 : Int) ∈ (handleAlarmEvent none evTriggered).2.map PushTask.delayMs := by
  refine ⟨by decide, by decide⟩

/-- C5 (amended): for every panel event, the push task (whose body invokes the
attribution resolver when the state is "triggered") is scheduled with zero
delay: the resolution is asynchronous (a created task) but not delayed — no
≈1.5 s settle delay exists in this code. -/
theorem C5_zero_delay_push (lastSrc : Option String) (ev : Event) :
    (handleAlarmEvent lastSrc ev).2.all (fun t => t.delayMs == 0) = true := by
  obtain ⟨e, o, n⟩ := ev
  cases n with
  | none => rfl
  | some ns =>
    cases hs : ns.state with
    | none => simp [handleAlarmEvent, hs]
    | some st =>
      by_cases h : (st == "unknown" || st == "unavailable") = true <;>
        simp [handleAlarmEvent, hs, h]

/-- A malformed panel event: new state `"unknown"`, no source attributes. -/
def evUnknown : Event :=
  ⟨some "alarm_control_panel.home", none, some (plainState "unknown")⟩

/-- C9 counterexample: a malformed panel event (state `"unknown"`) issues no
push, but it does NOT leave all engine state unchanged: `last_alarm_source`
is overwritten (here from `some "Zone 1"` to `none`) before the malformed
state is discarded. -/
theorem C9_hint_overwritten_counterexample :
    (handleAlarmEvent (some "Zone 1") evUnknown).2 = [] ∧
    (handleAlarmEvent (some "Zone 1") evUnknown).1 ≠ some "Zone 1" := by
  refine ⟨by decide, by decide⟩

/-- C9 (amended): an incoming panel event missing its new state entirely is
silently ignored with no push and no state change; an event whose new state is
`None`/`"unknown"`/`"unavailable"` issues no push, but first overwrites the
panel source hint from the event's `source`/`alarm_source`/`changed_by`
attributes. -/
theorem C9_malformed_event_behavior (lastSrc : Option String) (ev : Event) :
    (ev.newState = none → handleAlarmEvent lastSrc ev = (lastSrc, [])) ∧
    (∀ ns, ev.newState = some ns →
      (ns.state = none ∨ ns.state = some "unknown" ∨ ns.state = some "unavailable") →
      handleAlarmEvent lastSrc ev =
        (pyOrOpt ns.source (pyOrOpt ns.alarmSource ns.changedBy), [])) := by
  constructor
  · intro h
    simp [handleAlarmEvent, h]
  · intro ns hns hstate
    rcases hstate with h | h | h <;> simp [handleAlarmEvent, hns, h]

theorem C9_malformed_event_behavior_witness :
    handleAlarmEvent (some "Zone 1") evUnknown =
      (pyOrOpt (plainState "unknown").source
        (pyOrOpt (plainState "unknown").alarmSource (plainState "unknown").changedBy),
       []) :=
  (C9_malformed_event_behavior (some "Zone 1") evUnknown).2 (plainState "unknown")
    rfl (Or.inr (Or.inl rfl))

/-- Follows the spec's words (§4.2 step 3): allow-listed device classes for
the scan-based resolution strategy. -/
def SCAN_ALLOWED_DEVICE_CLASSES : List String :=
  ["door", "window", "opening", "garage_door", "motion", "occupancy", "presence", "lock"]

/-- A current sensor state as seen by the claimed live re-scan. -/
structure SensorSnapshot where
  entityId : String
  state : Option String
  deviceClass : Option String
  friendlyName : Option String
  lastChanged : Int
deriving Repr, DecidableEq

/-- Follows the spec's words (§4.2 step 3 / claim C6): iterate all current
sensor states and keep the one with the most recent `last_changed` that is
within the lookback window, in an active-state value, and allow-listed by
device class. Stated for comparison with the source's `_push_to_all`, which
implements no such scan. -/
def specLiveRescan (world : List SensorSnapshot) (now window : Int) :
    Option String :=
  let qualifies := fun (s : SensorSnapshot) =>
    (decide (0 ≤ now - s.lastChanged) && decide (now - s.lastChanged ≤ window)) &&
    (match s.state with
     | some v => specActiveVocab.contains (lowerStr v)
     | none => false) &&
    (match s.deviceClass with
     | some d => SCAN_ALLOWED_DEVICE_CLASSES.contains d
     | none => false)
  match (world.filter qualifies).foldl
      (fun best c =>
        match best with
        | none => some c
        | some b => if b.lastChanged < c.lastChanged then some c else some b) none with
  | some b => some (pyOrS b.friendlyName b.entityId)
  | none => none

/-- A qualifying current sensor state for the claimed live re-scan. -/
def kitchenSnap : SensorSnapshot :=
  ⟨"binary_sensor.kitchen", some "on", some "motion", some "Kitchen Motion", 95⟩

/-- C6 counterexample: with an empty Recency Store and no panel hint, the
claimed live re-scan would resolve to "Kitchen Motion" (a qualifying sensor
exists), but the source resolves directly to the default literal "Alarm" — no
live re-scan is implemented. -/
theorem C6_no_live_rescan_counterexample :
    specLiveRescan [kitchenSnap] 100 10 = some "Kitchen Motion" ∧
    resolveSource (pickRecentTriggerName [] 100 10) none true = "Alarm" ∧
    ("Kitchen Motion" : String) ≠ "Alarm" := by
  refine ⟨by decide, by decide, by decide⟩

/-- C6 (amended): when the recency-window scan yields nothing (every record is
stale) and the panel hint is absent, the resolver returns the default literal
"Alarm" directly, for either precedence setting: there is no live re-scan
step. -/
theorem C6_fallback_default (store : List ActivationRecord)
    (now lookbackSeconds : Int) (prefer : Bool)
    (hstale : ∀ r ∈ store, effectiveWindow lookbackSeconds < now - r.ts) :
    resolveSource (pickRecentTriggerName store now lookbackSeconds) none prefer =
      "Alarm" := by
  have hp : pickRecentTriggerName store now lookbackSeconds = none := by
    unfold pickRecentTriggerName
    split
    · rfl
    · exact pickScan_eq_none now _ store.reverse (fun r hr => hstale r (by simpa using hr))
  rw [hp]
  cases prefer <;> simp [resolveSource, pyOrS]

theorem C6_fallback_default_witness :
    resolveSource (pickRecentTriggerName [⟨"binary_sensor.a", "Sensor A", 0⟩] 100 10)
        none false = "Alarm" :=
  C6_fallback_default [⟨"binary_sensor.a", "Sensor A", 0⟩] 100 10 false (by decide)
